import Mathlib

/-!
Verification of the webqlrc gateway (Go) against its natural-language
specification.  The repository bridges a game server's RCON channel
(carried over ZMQ sockets) and a browser WebSocket console:

* `src/bridge/bridge.go` — the `MessageBridge` channel hub and its
  `PassMessages` selection loop;
* `src/rcon/rcon.go` — ZMQ socket setup (`initSockets`,
  `openQlConnection`), the poll loop (`monitorSockets`), the inbound
  dispatchers (`readZmqRconSocketMsg`, `readZmqMonitorSocketMsg`), the
  outbound sender (`doRconAction`, `ListenForMessagesFromWeb`) and
  `StartRcon`;
* `src/web/web.go` — the per-connection WebSocket pump
  (`readWebSocket`, `writeWebSocket`, `write`) and the HTTP handlers
  (`serveWs`).

Each Go function relevant to a claim is shallowly embedded below as an
executable Lean definition over explicit inputs (channel arrival orders,
poll outcomes, failure flags), and the claims are settled as theorems
about those definitions.
-/

namespace Webqlrcon

/-! ### Bridge (src/bridge/bridge.go)

The bridge holds four unidirectional channels of byte slices.  All four
are created by `make(chan []byte)` with no capacity argument, which in Go
yields an unbuffered (capacity-0) channel. -/

/-- The four channels of the `bridge` struct (src/bridge/bridge.go:8-13). -/
inductive BridgeChan where
  | rconToWeb
  | webToRcon
  | outToWeb
  | outToRcon
  deriving DecidableEq, Repr

/-- Capacity of each channel of `MessageBridge` as created in
src/bridge/bridge.go:15-20: `make(chan []byte)` with no size argument
gives a Go channel of capacity 0. -/
def messageBridgeCap : BridgeChan → Nat := fun _ => 0

/-- A Go channel send completes immediately exactly when a receiver is
already waiting or there is free buffer space.  For an unbuffered
channel (capacity 0) the buffer clause is always false, so the send
blocks until a receiver is ready. -/
def chanSendCompletes (cap buffered : Nat) (receiverReady : Bool) : Bool :=
  receiverReady || decide (buffered < cap)

/-- One arrival available to the `select` in `PassMessages`
(src/bridge/bridge.go:22-35): a message on `RconToWeb` or on
`WebToRcon`.  Payloads are byte slices, modelled as lists of bytes. -/
inductive BridgeIn where
  | fromRcon (payload : List Nat)
  | fromWeb (payload : List Nat)
  deriving DecidableEq, Repr

/-- One emission of `PassMessages`: a send on `OutToWeb` or `OutToRcon`. -/
inductive BridgeOut where
  | toWeb (payload : List Nat)
  | toRcon (payload : List Nat)
  deriving DecidableEq, Repr

/-- The body of one iteration of `PassMessages`
(src/bridge/bridge.go:24-33): a message taken from `RconToWeb` is sent
verbatim on `OutToWeb`; a message taken from `WebToRcon` is sent
verbatim on `OutToRcon`. -/
def passMessagesStep : BridgeIn → BridgeOut
  | .fromRcon p => .toWeb p
  | .fromWeb p => .toRcon p

/-- Run of `PassMessages` over a finite prefix of the arrival order chosen
by the scheduler: each iteration takes the next ready arrival and emits
exactly one message for it. -/
def passMessages (arrivals : List BridgeIn) : List BridgeOut :=
  arrivals.map passMessagesStep

/-- The payloads of the `RconToWeb` arrivals, in arrival order. -/
def rconArrivals : List BridgeIn → List (List Nat)
  | [] => []
  | .fromRcon p :: rest => p :: rconArrivals rest
  | .fromWeb _ :: rest => rconArrivals rest

/-- The payloads of the `WebToRcon` arrivals, in arrival order. -/
def webArrivals : List BridgeIn → List (List Nat)
  | [] => []
  | .fromRcon _ :: rest => webArrivals rest
  | .fromWeb p :: rest => p :: webArrivals rest

/-- The payloads sent on `OutToWeb`, in emission order. -/
def toWebEmits : List BridgeOut → List (List Nat)
  | [] => []
  | .toWeb p :: rest => p :: toWebEmits rest
  | .toRcon _ :: rest => toWebEmits rest

/-- The payloads sent on `OutToRcon`, in emission order. -/
def toRconEmits : List BridgeOut → List (List Nat)
  | [] => []
  | .toWeb _ :: rest => toRconEmits rest
  | .toRcon p :: rest => p :: toRconEmits rest

/-- C1: for every message received on `RconToWeb`, `PassMessages` emits
exactly one message with identical payload bytes on `OutToWeb`, and for
every message received on `WebToRcon` exactly one identical message on
`OutToRcon`; within each direction order is preserved, nothing is
merged, transformed or reordered, and N inbound control-side messages
yield exactly N messages on `OutToWeb` in the same order. -/
theorem c1_passMessages_one_to_one_order_preserving (arrivals : List BridgeIn) :
    toWebEmits (passMessages arrivals) = rconArrivals arrivals
    ∧ toRconEmits (passMessages arrivals) = webArrivals arrivals
    ∧ (passMessages arrivals).length = arrivals.length
    ∧ (toWebEmits (passMessages arrivals)).length = (rconArrivals arrivals).length := by
  refine ⟨?_, ?_, ?_, ?_⟩
  · induction arrivals with
    | nil => rfl
    | cons a rest ih =>
      cases a <;> simp [passMessages, passMessagesStep, rconArrivals, toWebEmits] at ih ⊢ <;>
        simpa [passMessages] using ih
  · induction arrivals with
    | nil => rfl
    | cons a rest ih =>
      cases a <;> simp [passMessages, passMessagesStep, webArrivals, toRconEmits] at ih ⊢ <;>
        simpa [passMessages] using ih
  · simp [passMessages]
  · induction arrivals with
    | nil => rfl
    | cons a rest ih =>
      cases a <;> simp [passMessages, passMessagesStep, rconArrivals, toWebEmits] at ih ⊢ <;>
        simpa [passMessages] using ih

/-! ### The web-to-rcon direction as a transition system (C4)

The direction is: the WebSocket read loop sends a payload on
`WebToRcon` (src/web/web.go:48); `PassMessages` receives it and sends it
on `OutToRcon` (src/bridge/bridge.go:28-29); `ListenForMessagesFromWeb`
(src/rcon/rcon.go:239-244) is the consumer on `OutToRcon`.  Both
channels are unbuffered, so each transfer is a rendezvous: the sender's
send completes exactly when the matching receive happens. -/

/-- State of one web-to-rcon message flow: `senderMsg` is the payload
the web read loop is still blocked sending on `WebToRcon` (`none` once
that send has completed); `routerHeld` is the payload `PassMessages`
has received from `WebToRcon` but not yet managed to send on
`OutToRcon`; `consumerPresent` records whether a consumer is receiving
on `OutToRcon`; `delivered` lists the payloads the consumer has
received. -/
structure WtrState where
  senderMsg : Option (List Nat)
  routerHeld : Option (List Nat)
  consumerPresent : Bool
  delivered : List (List Nat)
  deriving DecidableEq, Repr

/-- Atomic transitions of the web-to-rcon flow.  `handoff` is the
rendezvous on the unbuffered `WebToRcon`: it needs the router's select
to be at its receive (the router holds nothing).  `deliver` is the
rendezvous on the unbuffered `OutToRcon`: it needs a consumer.
`consumerArrives` starts a consumer on `OutToRcon`. -/
inductive WtrStep : WtrState → WtrState → Prop where
  | handoff (s : WtrState) (m : List Nat)
      (h1 : s.senderMsg = some m) (h2 : s.routerHeld = none) :
      WtrStep s { s with senderMsg := none, routerHeld := some m }
  | deliver (s : WtrState) (m : List Nat)
      (h1 : s.routerHeld = some m) (h2 : s.consumerPresent = true) :
      WtrStep s { s with routerHeld := none, delivered := s.delivered ++ [m] }
  | consumerArrives (s : WtrState) (h : s.consumerPresent = false) :
      WtrStep s { s with consumerPresent := true }

/-- Initial state of C4's scenario: the web side is sending payload `m`
on `WebToRcon`, the router holds nothing, and no consumer is receiving
on `OutToRcon`. -/
def wtrInit (m : List Nat) : WtrState :=
  { senderMsg := some m, routerHeld := none, consumerPresent := false, delivered := [] }

/-- All copies of the message currently in the system: still at the
sender, held by the router, or delivered. -/
def wtrMsgs (s : WtrState) : List (List Nat) :=
  s.senderMsg.toList ++ s.routerHeld.toList ++ s.delivered

/-- The messages in flight in the web-to-rcon direction: taken from the
sender but not yet delivered to the consumer. -/
def wtrInflight (s : WtrState) : List (List Nat) :=
  s.routerHeld.toList

/-- C4 counterexample: the claim says a send to `WebToRcon` with no
active consumer on `OutToRcon` "blocks the sender until a consumer
appears".  It does not: `PassMessages` is itself the receiver on
`WebToRcon`, so with payload `[104]` a single `handoff` step completes
the sender's send (`senderMsg = none`) while `consumerPresent` is still
`false`. -/
theorem c4_counterexample :
    ¬ (∀ s : WtrState, WtrStep (wtrInit [104]) s →
        s.senderMsg = none → s.consumerPresent = true) := by
  intro h
  have hstep : WtrStep (wtrInit [104])
      { senderMsg := none, routerHeld := some [104], consumerPresent := false,
        delivered := [] } := by
    have := WtrStep.handoff (wtrInit [104]) [104] rfl rfl
    simpa [wtrInit] using this
  have := h _ hstep rfl
  simp at this

/-- Helper: in any state at all, the web-to-rcon direction holds at most
one message in flight: `PassMessages` has a single local variable per
iteration and the channels buffer nothing. -/
theorem wtrInflight_le_one (s : WtrState) : (wtrInflight s).length ≤ 1 := by
  cases h : s.routerHeld <;> simp [wtrInflight, h]

/-- Helper: a single transition preserves the conservation invariant
(exactly the one message `m` is in the system) and the no-early-delivery
invariant (nothing is delivered while no consumer is present). -/
theorem wtrStep_preserves (m : List Nat) (a b : WtrState) (hstep : WtrStep a b)
    (ihm : wtrMsgs a = [m]) (ihd : a.consumerPresent = false → a.delivered = []) :
    wtrMsgs b = [m] ∧ (b.consumerPresent = false → b.delivered = []) := by
  cases hstep with
  | handoff m2 h1 h2 =>
    constructor
    · simpa [wtrMsgs, h1, h2] using ihm
    · intro hc
      exact ihd hc
  | deliver m2 h1 h2 =>
    constructor
    · rcases hs : a.senderMsg with _ | v
      · simp [wtrMsgs, h1, hs] at ihm
        simp [wtrMsgs, hs, ihm.1, ihm.2]
      · simp [wtrMsgs, h1, hs] at ihm
    · intro hc
      simp at hc
      rw [h2] at hc
      exact absurd hc (by simp)
  | consumerArrives h1 =>
    constructor
    · simpa [wtrMsgs] using ihm
    · intro hc
      simp at hc

/-- Helper invariant: every state reachable from `wtrInit m` still
carries exactly the one message `m` (no loss, no duplication) and never
has a nonempty `delivered` list without a consumer. -/
theorem wtrReach_invariant (m : List Nat) (s : WtrState)
    (h : Relation.ReflTransGen WtrStep (wtrInit m) s) :
    wtrMsgs s = [m] ∧ (s.consumerPresent = false → s.delivered = []) := by
  induction h with
  | refl => simp [wtrInit, wtrMsgs]
  | tail _ hstep ih => exact wtrStep_preserves m _ _ hstep ih.1 ih.2

/-- C4 amended: all four Bridge channels are zero-capacity and a send on
an unbuffered channel completes only when a receiver is ready.  With no
active consumer on `OutToRcon`, the router may complete the sender's
`WebToRcon` send by taking the message itself, but it then holds it: at
most one message is in flight in the direction, nothing is delivered
before a consumer appears, the message is never lost or duplicated, and
once a consumer appears it can be delivered with identical payload. -/
theorem c4_amended_zero_capacity_no_loss (m : List Nat) (s : WtrState)
    (h : Relation.ReflTransGen WtrStep (wtrInit m) s) :
    (∀ ch, messageBridgeCap ch = 0)
    ∧ (∀ buffered r, chanSendCompletes 0 buffered r = r)
    ∧ wtrMsgs s = [m]
    ∧ (s.consumerPresent = false → s.delivered = [])
    ∧ (wtrInflight s).length ≤ 1
    ∧ Relation.ReflTransGen WtrStep (wtrInit m)
        { senderMsg := none, routerHeld := none, consumerPresent := true,
          delivered := [m] } := by
  obtain ⟨h1, h2⟩ := wtrReach_invariant m s h
  refine ⟨fun _ => rfl, fun buffered r => by simp [chanSendCompletes], h1, h2,
    wtrInflight_le_one s, ?_⟩
  have s1 : WtrStep (wtrInit m)
      { senderMsg := none, routerHeld := some m, consumerPresent := false,
        delivered := [] } := by
    simpa [wtrInit] using WtrStep.handoff (wtrInit m) m rfl rfl
  have s2 : WtrStep
      { senderMsg := none, routerHeld := some m, consumerPresent := false,
        delivered := ([] : List (List Nat)) }
      { senderMsg := none, routerHeld := some m, consumerPresent := true,
        delivered := [] } :=
    WtrStep.consumerArrives _ rfl
  have s3 : WtrStep
      { senderMsg := none, routerHeld := some m, consumerPresent := true,
        delivered := ([] : List (List Nat)) }
      { senderMsg := none, routerHeld := none, consumerPresent := true,
        delivered := [m] } := by
    simpa using WtrStep.deliver _ m rfl rfl
  exact Relation.ReflTransGen.head s1 (Relation.ReflTransGen.head s2
    (Relation.ReflTransGen.single s3))

/-- C4 amended witness: the amended theorem applied to the initial state
itself (reachable in zero steps) for the concrete payload `[104]`. -/
theorem c4_amended_witness :
    messageBridgeCap BridgeChan.webToRcon = 0
    ∧ wtrMsgs (wtrInit [104]) = [[104]]
    ∧ Relation.ReflTransGen WtrStep (wtrInit [104])
        { senderMsg := none, routerHeld := none, consumerPresent := true,
          delivered := [[104]] } := by
  obtain ⟨a, _, c, _, _, f⟩ :=
    c4_amended_zero_capacity_no_loss [104] (wtrInit [104]) Relation.ReflTransGen.refl
  exact ⟨a BridgeChan.webToRcon, c, f⟩

/-! ### Monitor event formatting (src/rcon/rcon.go:207-217, C2)

When the monitor socket is ready, `monitorSockets` calls
`z.RecvEvent(0)` obtaining `(ev, adr, val, err)` and on success sends
`fmt.Sprintf("%s %s %d", ev, adr, val)` into the monitor message
channel. -/

/-- The string built for one monitor event record in
src/rcon/rcon.go:215: `fmt.Sprintf("%s %s %d", ev, adr, val)` — the
event name, the address, and the numeric value, space-separated. -/
def formatMonitorEvent (ev adr : String) (val : Int) : String :=
  ev ++ " " ++ adr ++ " " ++ toString val

/-- The messages produced for a sequence of monitor event records, in
receive order (each poll-loop iteration formats and emits one record at
a time into the unbuffered `monMsg.incoming` channel). -/
def monitorEventMsgs (evs : List (String × String × Int)) : List String :=
  evs.map (fun e => formatMonitorEvent e.1 e.2.1 e.2.2)

/-- C2 counterexample: the claim says the emitted string is
`"<event> <address>"`, containing exactly the event name and the address
and nothing else.  For the concrete record
`("EVENT_CONNECTED", "tcp://127.0.0.1:28960", 1)` the code also appends
the numeric value, so the emitted string differs from the claimed one. -/
theorem c2_counterexample :
    formatMonitorEvent "EVENT_CONNECTED" "tcp://127.0.0.1:28960" 1
      ≠ "EVENT_CONNECTED" ++ " " ++ "tcp://127.0.0.1:28960" := by
  decide

/-- C2 amended: every monitor event record is formatted as
`"<event> <address> <value>"` — the event name and address in order,
followed by the numeric value — and the produced messages are neither
lost nor reordered relative to other monitor events: each record
contributes exactly one message, in receive order. -/
theorem c2_amended_monitor_event_format (ev adr : String) (val : Int)
    (pre post : List (String × String × Int)) :
    formatMonitorEvent ev adr val = (ev ++ " " ++ adr) ++ (" " ++ toString val)
    ∧ monitorEventMsgs (pre ++ (ev, adr, val) :: post)
        = monitorEventMsgs pre ++ formatMonitorEvent ev adr val :: monitorEventMsgs post
    ∧ (monitorEventMsgs (pre ++ (ev, adr, val) :: post)).length
        = (pre ++ (ev, adr, val) :: post).length := by
  refine ⟨by simp [formatMonitorEvent, String.append_assoc], ?_, by simp [monitorEventMsgs]⟩
  simp [monitorEventMsgs]

/-! ### Inbound dispatchers (src/rcon/rcon.go:130-154, C7)

`readZmqRconSocketMsg` and `readZmqMonitorSocketMsg` each drain one
unbuffered string channel fed by the poll loop.  For every message they
print one line to the operator console with `fmt.Printf` and send the
raw payload into `bridge.MessageBridge.RconToWeb`. -/

/-- Observable effects of dispatching one inbound message: lines printed
to the operator console, and payloads sent into `Bridge.RconToWeb`. -/
structure DispatchEffects where
  console : List String
  toRconToWeb : List String
  deriving DecidableEq, Repr

/-- One iteration of the `for m := range msg.incoming` loop of
`readZmqRconSocketMsg` (src/rcon/rcon.go:139-154): it prints
`"Rcon socket: %s\n"` with the message — unconditionally, no
configuration flag is consulted — and forwards the raw payload into
`Bridge.RconToWeb`. -/
def readZmqRconSocketMsgStep (m : String) : DispatchEffects :=
  { console := ["Rcon socket: " ++ m ++ "\n"], toRconToWeb := [m] }

/-- One iteration of `readZmqMonitorSocketMsg`
(src/rcon/rcon.go:130-137): prints `"Monitor socket: %s\n"`
unconditionally and forwards the raw payload into `Bridge.RconToWeb`. -/
def readZmqMonitorSocketMsgStep (m : String) : DispatchEffects :=
  { console := ["Monitor socket: " ++ m ++ "\n"], toRconToWeb := [m] }

/-- The rcon configuration of src/rcon/rcon.go:15-20 (`qlZmqConfig`):
host, port, password and poll timeout.  It has no show-on-console
field; the only show-on-console flag in the repository is the
`QlZmqShowOnConsole` field of the config package, whose default
`defaultRconShowOnConsole` is `false`, and rcon.go never reads it. -/
structure qlZmqConfig where
  QlZmqHost : String
  QlZmqRconPort : Int
  QlZmqRconPassword : String
  QlZmqRconPollTimeOut : Int
  deriving DecidableEq, Repr

/-- Constant `defaultRconShowOnConsole = false` from the repository's config
package (config.go). -/
def defaultRconShowOnConsole : Bool := false

/-- C7 counterexample: the claim says the dispatcher echoes to the
operator console if and only if the show-on-console flag is set.  With
the repository's flag at its (only defined) default `false`, the
dispatcher still echoes the concrete message `"status"`, so the claimed
equivalence fails. -/
theorem c7_counterexample :
    ¬ (((readZmqRconSocketMsgStep "status").console ≠ [])
        ↔ defaultRconShowOnConsole = true) := by
  decide

/-- C7 amended: the inbound dispatchers echo every received RCON or
monitor message to the operator console unconditionally — no
show-on-console flag is consulted (the `qlZmqConfig` used by rcon.go has
no such field) — and in every case unconditionally forward the raw
payload into `Bridge.RconToWeb`. -/
theorem c7_amended_unconditional_echo_and_forward (m : String) :
    (readZmqRconSocketMsgStep m).console = ["Rcon socket: " ++ m ++ "\n"]
    ∧ (readZmqRconSocketMsgStep m).toRconToWeb = [m]
    ∧ (readZmqMonitorSocketMsgStep m).console = ["Monitor socket: " ++ m ++ "\n"]
    ∧ (readZmqMonitorSocketMsgStep m).toRconToWeb = [m]
    ∧ (readZmqRconSocketMsgStep m).console ≠ []
    ∧ (readZmqMonitorSocketMsgStep m).console ≠ [] := by
  refine ⟨rfl, rfl, rfl, rfl, ?_, ?_⟩ <;>
    simp [readZmqRconSocketMsgStep, readZmqMonitorSocketMsgStep]

/-! ### Control-socket lock discipline (C3)

`qlZmqSocket` (src/rcon/rcon.go:38-44) pairs the ZMQ socket with one
`sync.Mutex` (`mut`).  We transcribe, for each function that touches the
control socket, the exact sequence of lock/unlock and send/receive
operations it performs on that socket, and check which sends and
receives happen while the lock is held. -/

/-- A primitive operation on the control socket or its mutex. -/
inductive SockOp where
  | lockMut
  | unlockMut
  | send (payload : String)
  | recv
  deriving DecidableEq, Repr

/-- Operations of `doRconAction` (src/rcon/rcon.go:107-112): it locks
`rconsock.mut`, sends the action, and unlocks (via `defer`). -/
def doRconActionOps (action : String) : List SockOp :=
  [.lockMut, .send action, .unlockMut]

/-- Control-socket send/receive operations of `openQlConnection`
(src/rcon/rcon.go:114-128) — the option setters and `Connect` are not
sends or receives; after a successful connect the function performs
`s.socket.Send("register", 0)` with no mutex operation anywhere in the
function. -/
def openQlConnectionOps : List SockOp :=
  [.send "register"]

/-- Control-socket operations of one rcon-ready poll iteration of
`monitorSockets` (src/rcon/rcon.go:195-206): `z.Recv(0)` is called with
no mutex operation (the source comment there reads "z.Recv() here might
require a lock"). -/
def monitorSocketsRconRecvOps : List SockOp :=
  [.recv]

/-- Predicate `allTouchesLocked depth ops` is `true` exactly when every send and
receive in `ops` happens while the mutex is held (lock depth positive),
starting from the given depth. -/
def allTouchesLocked : Nat → List SockOp → Bool
  | _, [] => true
  | d, .lockMut :: rest => allTouchesLocked (d + 1) rest
  | d, .unlockMut :: rest => allTouchesLocked (d - 1) rest
  | d, .send _ :: rest => decide (0 < d) && allTouchesLocked d rest
  | d, .recv :: rest => decide (0 < d) && allTouchesLocked d rest

/-- C3 counterexample: the claim says the setup-time `"register"` send
and the poller's frame receive are performed while holding the
per-socket lock.  Neither is: starting unlocked, `openQlConnection`'s
send and `monitorSockets`' receive both touch the socket at lock depth
zero. -/
theorem c3_counterexample :
    allTouchesLocked 0 openQlConnectionOps = false
    ∧ allTouchesLocked 0 monitorSocketsRconRecvOps = false := by
  decide

/-- C3 amended: of the three control-socket touch points, only the
outbound sender's send is lock-protected: `doRconAction` performs its
send while holding `mut`, while the setup-time `"register"` send in
`openQlConnection` and the poller's receive in `monitorSockets` are
performed without acquiring the lock, so control-socket operations are
not all mutually exclusive. -/
theorem c3_amended_lock_discipline (action : String) :
    allTouchesLocked 0 (doRconActionOps action) = true
    ∧ allTouchesLocked 0 openQlConnectionOps = false
    ∧ allTouchesLocked 0 monitorSocketsRconRecvOps = false := by
  refine ⟨?_, by decide, by decide⟩
  simp [doRconActionOps, allTouchesLocked]

/-! ### The poll loop (src/rcon/rcon.go:191-219, C5)

`monitorSockets` runs `for {}` around `poller.Poll(polltimeout)`; for
each ready socket it receives once.  A receive error is printed with
`fmt.Printf` and the iteration continues (`continue`); the loop body
contains no `break` and no `return`, so the loop never exits. -/

/-- Outcome of one receive call on a ready socket. -/
inductive RecvOutcome (α : Type) where
  | ok (val : α)
  | recvErr (e : String)
  deriving DecidableEq, Repr

/-- One ready entry returned by `poller.Poll`: the control (rcon)
socket with its `Recv` outcome, or the monitor socket with its
`RecvEvent` outcome. -/
inductive PollReady where
  | rconReady (r : RecvOutcome String)
  | monitorReady (r : RecvOutcome (String × String × Int))
  deriving DecidableEq, Repr

/-- Observable effects of the poll loop: messages emitted into the
incoming channels, lines logged, and whether the loop exited. -/
structure PollEffects where
  emitted : List String
  logged : List String
  exited : Bool
  deriving DecidableEq, Repr

/-- Sequencing of poll effects. -/
def pollEffectsAppend (a b : PollEffects) : PollEffects :=
  { emitted := a.emitted ++ b.emitted
    logged := a.logged ++ b.logged
    exited := a.exited || b.exited }

/-- The switch body of `monitorSockets` for one ready socket
(src/rcon/rcon.go:194-217): an error is logged and the iteration
continues (nothing emitted, no exit); a received rcon frame is emitted
when non-empty; a received monitor event is formatted and emitted. -/
def processReady : PollReady → PollEffects
  | .rconReady (.ok m) =>
      { emitted := if m.length ≠ 0 then [m] else [], logged := [], exited := false }
  | .rconReady (.recvErr e) =>
      { emitted := [], logged := ["Error polling msg from rcon socket: " ++ e],
        exited := false }
  | .monitorReady (.ok (ev, adr, val)) =>
      { emitted := [formatMonitorEvent ev adr val], logged := [], exited := false }
  | .monitorReady (.recvErr e) =>
      { emitted := [], logged := ["Error polling msg from monitor socket: " ++ e],
        exited := false }

/-- One iteration of the outer `for {}` loop: process every ready
socket of this poll in order. -/
def pollIteration (ready : List PollReady) : PollEffects :=
  ready.foldr (fun r acc => pollEffectsAppend (processReady r) acc)
    { emitted := [], logged := [], exited := false }

/-- The poll loop run over a finite prefix of its (infinite) sequence of
poll results. -/
def monitorSocketsRun (iterations : List (List PollReady)) : PollEffects :=
  iterations.foldr (fun it acc => pollEffectsAppend (pollIteration it) acc)
    { emitted := [], logged := [], exited := false }

/-- Helper: no branch of the switch body exits the loop. -/
theorem processReady_exited (r : PollReady) : (processReady r).exited = false := by
  rcases r with ro | mo
  · cases ro <;> rfl
  · rcases mo with v | e
    · obtain ⟨ev, adr, val⟩ := v
      rfl
    · rfl

/-- Helper: no iteration of the poll loop exits it. -/
theorem pollIteration_exited (ready : List PollReady) :
    (pollIteration ready).exited = false := by
  induction ready with
  | nil => rfl
  | cons r rest ih =>
    have h : pollIteration (r :: rest)
        = pollEffectsAppend (processReady r) (pollIteration rest) := rfl
    rw [h]
    simp [pollEffectsAppend, processReady_exited r, ih]

/-- Helper: sequencing of poll effects is associative. -/
theorem pollEffectsAppend_assoc (a b c : PollEffects) :
    pollEffectsAppend (pollEffectsAppend a b) c
      = pollEffectsAppend a (pollEffectsAppend b c) := by
  simp [pollEffectsAppend, List.append_assoc, Bool.or_assoc]

/-- Helper: a run of the poll loop splits over concatenation of its
iteration prefixes. -/
theorem monitorSocketsRun_append (xs ys : List (List PollReady)) :
    monitorSocketsRun (xs ++ ys)
      = pollEffectsAppend (monitorSocketsRun xs) (monitorSocketsRun ys) := by
  induction xs with
  | nil => simp [monitorSocketsRun, pollEffectsAppend]
  | cons x rest ih =>
    have h1 : monitorSocketsRun ((x :: rest) ++ ys)
        = pollEffectsAppend (pollIteration x) (monitorSocketsRun (rest ++ ys)) := rfl
    have h2 : monitorSocketsRun (x :: rest)
        = pollEffectsAppend (pollIteration x) (monitorSocketsRun rest) := rfl
    rw [h1, h2, ih, pollEffectsAppend_assoc]

/-- Helper: an iteration in which the control socket's receive errored
contributes exactly one log line, emits nothing, and does not exit. -/
theorem monitorSocketsRun_rcon_err (e : String) :
    monitorSocketsRun [[.rconReady (.recvErr e)]]
      = { emitted := [], logged := ["Error polling msg from rcon socket: " ++ e],
          exited := false } := rfl

/-- Helper: an iteration in which the monitor socket's receive errored
contributes exactly one log line, emits nothing, and does not exit. -/
theorem monitorSocketsRun_monitor_err (e : String) :
    monitorSocketsRun [[.monitorReady (.recvErr e)]]
      = { emitted := [], logged := ["Error polling msg from monitor socket: " ++ e],
          exited := false } := rfl

/-- C5: a receive error on the control socket or the monitor socket is
logged and the loop continues with the next iteration, dropping only the
offending message: a run containing an errored iteration emits exactly
what the surrounding iterations emit, adds exactly the one error log
line, and the loop's exit flag stays `false` for every sequence of poll
results — the loop never terminates on its own. -/
theorem c5_poll_loop_error_resilience (its pre post : List (List PollReady))
    (e1 e2 : String) :
    (monitorSocketsRun its).exited = false
    ∧ monitorSocketsRun (pre ++ [[.rconReady (.recvErr e1)]] ++ post)
        = pollEffectsAppend (monitorSocketsRun pre)
            (pollEffectsAppend
              { emitted := [], logged := ["Error polling msg from rcon socket: " ++ e1],
                exited := false }
              (monitorSocketsRun post))
    ∧ monitorSocketsRun (pre ++ [[.monitorReady (.recvErr e2)]] ++ post)
        = pollEffectsAppend (monitorSocketsRun pre)
            (pollEffectsAppend
              { emitted := [], logged := ["Error polling msg from monitor socket: " ++ e2],
                exited := false }
              (monitorSocketsRun post))
    ∧ (monitorSocketsRun (pre ++ [[.rconReady (.recvErr e1)]] ++ post)).emitted
        = (monitorSocketsRun pre).emitted ++ (monitorSocketsRun post).emitted := by
  refine ⟨?_, ?_, ?_, ?_⟩
  · induction its with
    | nil => rfl
    | cons it rest ih =>
      have h : monitorSocketsRun (it :: rest)
          = pollEffectsAppend (pollIteration it) (monitorSocketsRun rest) := rfl
      rw [h]
      simp [pollEffectsAppend, pollIteration_exited it, ih]
  · rw [monitorSocketsRun_append, monitorSocketsRun_append, monitorSocketsRun_rcon_err]
    exact pollEffectsAppend_assoc _ _ _
  · rw [monitorSocketsRun_append, monitorSocketsRun_append, monitorSocketsRun_monitor_err]
    exact pollEffectsAppend_assoc _ _ _
  · rw [monitorSocketsRun_append, monitorSocketsRun_append, monitorSocketsRun_rcon_err]
    simp [pollEffectsAppend]

/-! ### RCON setup (src/rcon/rcon.go:66-93 and 246-272, C6)

`initSockets` creates the ZMQ context, the DEALER (control) socket and
the PAIR (monitor) socket, wires the monitor, connects the monitor
socket, and opens the authenticated connection; at the first failure it
returns the error immediately.  `StartRcon` reads the configuration,
calls `initSockets`, and only after both succeed launches the
`ListenForMessagesFromWeb` and `monitorSockets` goroutines. -/

/-- Which of the fallible steps of `initSockets` succeed, in source
order: `zmq.NewContext`, `newQlZmqSocket` for the DEALER socket,
`newQlZmqSocket` for the PAIR socket, `rconsocket.socket.Monitor`,
`monitorsocket.socket.Connect`, and `openQlConnection`. -/
structure InitOutcomes where
  contextOk : Bool
  rconSocketOk : Bool
  monitorSocketOk : Bool
  monitorWireOk : Bool
  monitorConnectOk : Bool
  qlConnectOk : Bool
  deriving DecidableEq, Repr

/-- The socket role tags of src/rcon/rcon.go:27-34 (`qlSocketType`). -/
abbrev qlSocketType := Nat

/-- Constant `socketRcon qlSocketType = 0` (src/rcon/rcon.go:31). -/
def socketRcon : qlSocketType := 0

/-- Constant `socketMonitor qlSocketType = 1` (src/rcon/rcon.go:32). -/
def socketMonitor : qlSocketType := 1

/-- Function `initSockets` (src/rcon/rcon.go:66-93): returns at the first failed
step with an error; on success returns the control and monitor socket
roles. -/
def initSockets (o : InitOutcomes) : Except String (List qlSocketType) :=
  if !o.contextOk then .error "Context error"
  else if !o.rconSocketOk then .error "Unable to create ZMQ socket of type DEALER"
  else if !o.monitorSocketOk then .error "Unable to create ZMQ socket of type PAIR"
  else if !o.monitorWireOk then .error "Monitor callback error"
  else if !o.monitorConnectOk then .error "Unable to connect to monitor socket"
  else if !o.qlConnectOk then .error "Connection error"
  else .ok [socketRcon, socketMonitor]

/-- What `StartRcon` did: which goroutines it launched and what it
returned. -/
structure StartRconOutcome where
  launched : List String
  result : Except String Unit

/-- Boolean success test for `StartRcon`'s returned error value. -/
def exceptIsOk : Except String Unit → Bool
  | .ok _ => true
  | .error _ => false

/-- Function `StartRcon` (src/rcon/rcon.go:246-272): a configuration read
failure or any `initSockets` failure returns an error before any
goroutine is launched; on success it launches the OutToRcon consumer
and the poll loop. -/
def startRcon (configOk : Bool) (o : InitOutcomes) : StartRconOutcome :=
  if !configOk then
    { launched := [], result := .error "Unable to read rcon configuration file" }
  else
    match initSockets o with
    | .error e =>
      { launched := [],
        result := .error ("Error when attempting to create sockets: " ++ e) }
    | .ok _ =>
      { launched := ["ListenForMessagesFromWeb", "monitorSockets"], result := .ok () }

/-- The process-level actions of `main` (src/main.go:12-17), in order:
start the bridge router goroutine, log the startup banner, call
`rcon.StartRcon` (its returned error is not inspected — but no retry or
reconnection of any kind is attempted), and call `web.StartWeb`. -/
inductive ProcAction where
  | startBridgePassMessages
  | logStartup
  | callStartRcon
  | callStartWeb
  deriving DecidableEq, Repr

/-- The body of `main` (src/main.go:12-17). -/
def mainActions : List ProcAction :=
  [.startBridgePassMessages, .logStartup, .callStartRcon, .callStartWeb]

/-- Test that is `true` when the configuration read or some step of `initSockets`
fails. -/
def isSetupFailure (configOk : Bool) (o : InitOutcomes) : Bool :=
  !configOk || !o.contextOk || !o.rconSocketOk || !o.monitorSocketOk
    || !o.monitorWireOk || !o.monitorConnectOk || !o.qlConnectOk

/-- C6: if configuration reading, socket or context creation, connect,
or monitor wiring fails during RCON setup, `StartRcon` returns an error,
launches no part of the RCON side (no goroutines), and no retry exists:
`main` calls `StartRcon` exactly once, so the RCON side simply never
runs. -/
theorem c6_setup_failure_fatal (configOk : Bool) (o : InitOutcomes)
    (h : isSetupFailure configOk o = true) :
    exceptIsOk (startRcon configOk o).result = false
    ∧ (startRcon configOk o).launched = []
    ∧ mainActions.count ProcAction.callStartRcon = 1 := by
  refine ⟨?_, ?_, by decide⟩ <;>
  · obtain ⟨c1, c2, c3, c4, c5, c6⟩ := o
    simp [isSetupFailure] at h
    cases configOk <;> cases c1 <;> cases c2 <;> cases c3 <;> cases c4 <;>
      cases c5 <;> cases c6 <;>
      simp_all [startRcon, initSockets, exceptIsOk]

/-- C6 witness: applying the theorem at a concrete failing setup — the
configuration reads fine but ZMQ context creation fails. -/
theorem c6_setup_failure_fatal_witness :
    exceptIsOk (startRcon true
      { contextOk := false, rconSocketOk := true, monitorSocketOk := true,
        monitorWireOk := true, monitorConnectOk := true, qlConnectOk := true }).result
      = false
    ∧ (startRcon true
      { contextOk := false, rconSocketOk := true, monitorSocketOk := true,
        monitorWireOk := true, monitorConnectOk := true, qlConnectOk := true }).launched
      = [] :=
  ⟨(c6_setup_failure_fatal true _ (by decide)).1,
   (c6_setup_failure_fatal true _ (by decide)).2.1⟩

/-! ### WebSocket write loop (src/web/web.go:52-81, C8 and C9)

Durations are modelled in nanoseconds, the unit of Go's
`time.Duration`.  `intToDuration(val, time.Second)` is
`time.Duration(val) * time.Second`, i.e. `val` seconds.  The write loop
creates `time.NewTicker(intToDuration((cfg.Web.WebPongTimeout*9)/10,
time.Second))` — `*` binds tighter than `/` here, so the period is the
integer quotient `(pongTimeout*9)/10` in whole seconds — and its
`select` drains `Bridge.OutToWeb` and the ticker.  Every frame goes out
through `write`, which first sets a write deadline of
`cfg.Web.WebSendTimeout` seconds. -/

/-- Go's `time.Second` in nanoseconds. -/
def second : Nat := 1000000000

/-- Function `intToDuration` (src/web/web.go:28-30): `time.Duration(val) * dur`. -/
def intToDuration (val : Nat) (dur : Nat) : Nat := val * dur

/-- The keepalive ticker period of `writeWebSocket`
(src/web/web.go:58): `intToDuration((WebPongTimeout*9)/10, time.Second)`
with Go integer division. -/
def pingTickerPeriod (webPongTimeout : Nat) : Nat :=
  intToDuration ((webPongTimeout * 9) / 10) second

/-- The configured pong-timeout as a duration (src/web/web.go:34). -/
def pongTimeoutDuration (webPongTimeout : Nat) : Nat :=
  intToDuration webPongTimeout second

/-- C8 counterexample: the claim says that for every configured
pong-timeout the ticker fires at intervals of 9/10 of the pong-timeout.
For the concrete configuration `WebPongTimeout = 7` the code's integer
division gives a 6-second period, while 9/10 of 7 seconds is 6.3
seconds: `10 * period ≠ 9 * pongTimeout`. -/
theorem c8_counterexample :
    10 * pingTickerPeriod 7 ≠ 9 * pongTimeoutDuration 7 := by
  decide

/-- The WebSocket frame kinds used by the write loop
(gorilla/websocket's TextMessage, PingMessage, CloseMessage). -/
inductive FrameKind where
  | textFrame
  | pingFrame
  | closeFrame
  deriving DecidableEq, Repr

/-- One call of the `write` helper (src/web/web.go:52-55): it sets the
write deadline `WebSendTimeout` seconds from now and writes one frame. -/
structure WriteCall where
  frame : FrameKind
  payload : List Nat
  deadline : Nat
  deriving DecidableEq, Repr

/-- Function `write` (src/web/web.go:52-55) invoked for one frame: every frame —
text, ping or close — is written under a deadline of exactly
`intToDuration(WebSendTimeout, time.Second)` from now. -/
def writeCall (webSendTimeout : Nat) (k : FrameKind) (p : List Nat) : WriteCall :=
  { frame := k, payload := p, deadline := intToDuration webSendTimeout second }

/-- One wake-up of the `select` in `writeWebSocket`
(src/web/web.go:63-80): a message delivered from `OutToWeb` (`ok` was
true), the closure of `OutToWeb` (`ok` was false), or a ticker tick. -/
inductive WriteLoopEvent where
  | outToWebMsg (payload : List Nat)
  | outToWebClosed
  | tick
  deriving DecidableEq, Repr

/-- Observable effects of the write loop: frames written, plus the
deferred `pingTicker.Stop()` and `c.w.Close()` that run when the loop
returns (src/web/web.go:59-62). -/
inductive WriteLoopEffect where
  | wrote (c : WriteCall)
  | stoppedTicker
  | closedConn
  deriving DecidableEq, Repr

/-- Result of one iteration of the write loop's `select`. -/
structure WriteStep where
  effects : List WriteLoopEffect
  continues : Bool
  deriving DecidableEq, Repr

/-- The `select` body of `writeWebSocket` (src/web/web.go:63-80).
`writeFails` says whether the frame write performed in this iteration
returns an error.  A closed `OutToWeb` sends a close frame (its write
error, if any, is not even inspected) and returns; a failed text or
ping write returns; otherwise the loop continues. -/
def writeWebSocketStep (webSendTimeout : Nat) (writeFails : Bool) :
    WriteLoopEvent → WriteStep
  | .outToWebClosed =>
      { effects := [.wrote (writeCall webSendTimeout .closeFrame [])], continues := false }
  | .outToWebMsg p =>
      { effects := [.wrote (writeCall webSendTimeout .textFrame p)],
        continues := !writeFails }
  | .tick =>
      { effects := [.wrote (writeCall webSendTimeout .pingFrame [])],
        continues := !writeFails }

/-- Run of `writeWebSocket` over a finite prefix of its wake-ups: it
iterates until a step stops, then the deferred `pingTicker.Stop()` and
`c.w.Close()` run. -/
def writeWebSocketRun (webSendTimeout : Nat) (writeFails : Bool) :
    List WriteLoopEvent → List WriteLoopEffect
  | [] => []
  | ev :: rest =>
    let s := writeWebSocketStep webSendTimeout writeFails ev
    if s.continues then s.effects ++ writeWebSocketRun webSendTimeout writeFails rest
    else s.effects ++ [.stoppedTicker, .closedConn]

/-- Sites in the repository where a Bridge channel is passed to Go's
`close`: there are none — no source file contains a `close` call on any
of the four channels. -/
def bridgeChannelCloseSites : List BridgeChan := []

/-- C8 amended: the keepalive ticker fires at intervals of
`(pongTimeout*9)/10` whole seconds — the integer quotient, which equals
exactly 9/10 of the pong-timeout whenever the configured pong-timeout is
a multiple of 10 (e.g. the default 60) — and each ping, like every other
frame written by the loop, is sent under a write deadline equal to the
configured send-timeout. -/
theorem c8_amended_ticker_and_deadline (p st : Nat) (wf : Bool) (ev : WriteLoopEvent) :
    pingTickerPeriod p = ((p * 9) / 10) * second
    ∧ (10 ∣ p → 10 * pingTickerPeriod p = 9 * pongTimeoutDuration p)
    ∧ (∀ c : WriteCall,
        WriteLoopEffect.wrote c ∈ (writeWebSocketStep st wf ev).effects →
          c.deadline = intToDuration st second) := by
  refine ⟨rfl, ?_, ?_⟩
  · rintro ⟨k, rfl⟩
    have h9 : 10 * k * 9 / 10 = 9 * k := by omega
    simp only [pingTickerPeriod, pongTimeoutDuration, intToDuration, h9]
    ring
  · intro c hc
    cases ev <;> simp [writeWebSocketStep, writeCall] at hc <;> simp [hc]

/-- C8 amended witness: at the repository's default configuration
(pong-timeout 60 s, send-timeout 10 s) the ticker period is exactly
9/10 of the pong-timeout, and a ping frame goes out with a 10-second
deadline. -/
theorem c8_amended_ticker_and_deadline_witness :
    10 * pingTickerPeriod 60 = 9 * pongTimeoutDuration 60
    ∧ (writeCall 10 FrameKind.pingFrame []).deadline = intToDuration 10 second :=
  ⟨(c8_amended_ticker_and_deadline 60 10 false .tick).2.1 (by decide),
   (c8_amended_ticker_and_deadline 60 10 false .tick).2.2
     (writeCall 10 FrameKind.pingFrame []) (by simp [writeWebSocketStep])⟩

/-- C9: when `OutToWeb` is closed the write loop writes one close frame
and exits through its normal return path (the deferred ticker stop and
connection close run, nothing more — regardless of whether that last
write fails, since its error is not inspected); when any write (text
frame or ping) fails the loop returns and the connection is closed; and
the only Bridge channel the repository ever explicitly closes is
`OutToWeb` — indeed no close call on a Bridge channel exists at all. -/
theorem c9_write_loop_close_and_error_exit (st : Nat) (p : List Nat)
    (rest : List WriteLoopEvent) :
    writeWebSocketRun st false (.outToWebClosed :: rest)
      = [.wrote (writeCall st .closeFrame []), .stoppedTicker, .closedConn]
    ∧ writeWebSocketRun st true (.outToWebClosed :: rest)
      = [.wrote (writeCall st .closeFrame []), .stoppedTicker, .closedConn]
    ∧ writeWebSocketRun st true (.outToWebMsg p :: rest)
      = [.wrote (writeCall st .textFrame p), .stoppedTicker, .closedConn]
    ∧ writeWebSocketRun st true (.tick :: rest)
      = [.wrote (writeCall st .pingFrame []), .stoppedTicker, .closedConn]
    ∧ writeWebSocketRun st false (.outToWebMsg p :: rest)
      = .wrote (writeCall st .textFrame p) :: writeWebSocketRun st false rest
    ∧ ∀ ch ∈ bridgeChannelCloseSites, ch = BridgeChan.outToWeb := by
  refine ⟨rfl, rfl, rfl, rfl, rfl, ?_⟩
  intro ch hch
  simp [bridgeChannelCloseSites] at hch

/-! ### The WebSocket HTTP handler (src/web/web.go:96-108, C10) -/

/-- Observable effects of one invocation of `serveWs`. -/
structure ServeWsEffects where
  httpStatusWrites : List Nat
  attemptedUpgrade : Bool
  loggedUpgradeError : Bool
  installedSession : Bool
  startedWriteLoop : Bool
  startedReadLoop : Bool
  deriving DecidableEq, Repr

/-- Function `serveWs` (src/web/web.go:96-108): a non-GET method writes a 405
error response, but the branch has no `return`, so execution falls
through to `upgrader.Upgrade` in every case; a failed upgrade is logged
and the handler returns; a successful upgrade stores the connection in
the package-level `wsconn`, starts `writeWebSocket` in a new goroutine
and runs `readWebSocket`. -/
def serveWs (method : String) (upgradeOk : Bool) : ServeWsEffects :=
  let statusWrites := if method = "GET" then ([] : List Nat) else [405]
  if upgradeOk then
    { httpStatusWrites := statusWrites, attemptedUpgrade := true,
      loggedUpgradeError := false, installedSession := true,
      startedWriteLoop := true, startedReadLoop := true }
  else
    { httpStatusWrites := statusWrites, attemptedUpgrade := true,
      loggedUpgradeError := true, installedSession := false,
      startedWriteLoop := false, startedReadLoop := false }

/-- C10: for every HTTP request to the WebSocket path whose method is
not GET, `serveWs` writes a 405 error response but does not return: it
still attempts the WebSocket upgrade, and if the upgrade succeeds it
installs the new connection as the active session and starts its read
and write loops. -/
theorem c10_serveWs_non_get_still_upgrades (method : String) (upgradeOk : Bool)
    (h : method ≠ "GET") :
    (serveWs method upgradeOk).httpStatusWrites = [405]
    ∧ (serveWs method upgradeOk).attemptedUpgrade = true
    ∧ (serveWs method true).installedSession = true
    ∧ (serveWs method true).startedWriteLoop = true
    ∧ (serveWs method true).startedReadLoop = true := by
  cases upgradeOk <;> simp [serveWs, h]

/-- C10 witness: a POST request with a succeeding upgrade gets the 405
response and nevertheless ends up with an installed, running session. -/
theorem c10_serveWs_non_get_still_upgrades_witness :
    (serveWs "POST" true).httpStatusWrites = [405]
    ∧ (serveWs "POST" true).installedSession = true :=
  ⟨(c10_serveWs_non_get_still_upgrades "POST" true (by decide)).1,
   (c10_serveWs_non_get_still_upgrades "POST" true (by decide)).2.2.1⟩

/-! ### Concrete witnesses

The universally quantified claim theorems above, each applied at one
concrete input. -/

/-- C1 witness: with one control-side arrival of payload `[112]`
followed by one web-side arrival of payload `[113]`, the router emits
exactly the control payload on `OutToWeb`, exactly the web payload on
`OutToRcon`, and two messages in total. -/
theorem c1_passMessages_witness :
    toWebEmits (passMessages [BridgeIn.fromRcon [112], BridgeIn.fromWeb [113]]) = [[112]]
    ∧ toRconEmits (passMessages [BridgeIn.fromRcon [112], BridgeIn.fromWeb [113]]) = [[113]]
    ∧ (passMessages [BridgeIn.fromRcon [112], BridgeIn.fromWeb [113]]).length = 2 :=
  ⟨(c1_passMessages_one_to_one_order_preserving
      [BridgeIn.fromRcon [112], BridgeIn.fromWeb [113]]).1,
   (c1_passMessages_one_to_one_order_preserving
      [BridgeIn.fromRcon [112], BridgeIn.fromWeb [113]]).2.1,
   (c1_passMessages_one_to_one_order_preserving
      [BridgeIn.fromRcon [112], BridgeIn.fromWeb [113]]).2.2.1⟩

/-- C2 witness: a singleton monitor event sequence produces exactly its
one formatted message. -/
theorem c2_amended_witness :
    monitorEventMsgs [("EVENT_CONNECTED", "tcp://127.0.0.1:28960", 1)]
      = [formatMonitorEvent "EVENT_CONNECTED" "tcp://127.0.0.1:28960" 1] := by
  simpa using (c2_amended_monitor_event_format "EVENT_CONNECTED"
    "tcp://127.0.0.1:28960" 1 [] []).2.1

/-- C3 witness: the outbound sender's send of the concrete command
`"say hello"` is performed under the lock. -/
theorem c3_amended_witness :
    allTouchesLocked 0 (doRconActionOps "say hello") = true :=
  (c3_amended_lock_discipline "say hello").1

/-- C5 witness: a run consisting of one errored control-socket receive
does not exit the loop and emits nothing. -/
theorem c5_poll_loop_witness :
    (monitorSocketsRun [[PollReady.rconReady (RecvOutcome.recvErr "EAGAIN")]]).exited
      = false
    ∧ (monitorSocketsRun ([] ++ [[PollReady.rconReady (RecvOutcome.recvErr "EAGAIN")]]
        ++ [])).emitted
      = (monitorSocketsRun ([] : List (List PollReady))).emitted
        ++ (monitorSocketsRun ([] : List (List PollReady))).emitted :=
  ⟨(c5_poll_loop_error_resilience [[PollReady.rconReady (RecvOutcome.recvErr "EAGAIN")]]
      [] [] "EAGAIN" "EAGAIN").1,
   (c5_poll_loop_error_resilience [] [] [] "EAGAIN" "EAGAIN").2.2.2⟩

/-- C7 witness: the concrete message `"status"` is echoed to the console
and forwarded verbatim into `Bridge.RconToWeb`. -/
theorem c7_amended_witness :
    (readZmqRconSocketMsgStep "status").console = ["Rcon socket: " ++ "status" ++ "\n"]
    ∧ (readZmqRconSocketMsgStep "status").toRconToWeb = ["status"] :=
  ⟨(c7_amended_unconditional_echo_and_forward "status").1,
   (c7_amended_unconditional_echo_and_forward "status").2.1⟩

/-- C9 witness: with a 10-second send-timeout, closure of `OutToWeb`
makes the write loop write one close frame, stop the ticker and close
the connection. -/
theorem c9_write_loop_witness :
    writeWebSocketRun 10 false [WriteLoopEvent.outToWebClosed]
      = [WriteLoopEffect.wrote (writeCall 10 FrameKind.closeFrame []),
         WriteLoopEffect.stoppedTicker, WriteLoopEffect.closedConn] :=
  (c9_write_loop_close_and_error_exit 10 [104] []).1

end Webqlrcon
